import Mathlib

/-
Verification development for the deejayssentia persistence layer
(src/db/DBConnector.py): a shallow embedding of the idempotent
upsert-and-link subsystem (add_song, add_album, add_artist, add_relation,
add_data, is_row_in_table, is_relation_in_table, get_correct_date_format)
together with theorems settling the specification claims.

Modelling conventions:
- Python values that can appear in a song record or a table cell are the
  inductive `Val`.  Feature ratios are Python floats that this subsystem
  only stores and compares for equality, never computes with, so they are
  modelled as opaque exact numbers (`Val.vNum`).
- A Python dict is an association list in insertion order with distinct
  keys (`Record`); `List.lookup` is dict access.
- A table row is an association list from column names to values (`Row`);
  a column of the table that a row does not bind is SQL NULL.
- UUIDs (uuid4 and gen_random_uuid) are modelled by a fresh-id counter
  `DB.nextId`; freshness is all the code relies on.
- Database errors that psycopg raises (unknown table, unknown column,
  placeholder/parameter arity mismatch, foreign key violation) are the
  `none` results of `selectFirst`/`insertRow`; the Python code catches
  these (`except` + rollback).  Python-level exceptions that the code does
  NOT catch (ValueError from int()/date(), KeyError from dict access,
  TypeError from subscripting a non-sequence) are modelled by
  `Except.error` results that propagate.  `PyErr.typeError` also stands
  for IndexError (both are uncaught, the distinction is never observable).
- SQL equality: comparisons against NULL are never true (`sqlEq`).
  Comparing values of different SQL types makes PostgreSQL raise, which
  the callers catch and turn into "no match"; `sqlEq` returns false there,
  which yields the same observable "no match" result.
-/

inductive PyErr where
  | valueError
  | keyError
  | typeError
deriving DecidableEq

inductive Val where
  | vStr (s : String)
  | vNum (n : Int)
  | vDate (y m d : Nat)
  | vUuid (n : Nat)
  | vPair (a b : Int)
  | vNull
deriving DecidableEq

abbrev Row := List (String × Val)

abbrev Record := List (String × Val)

/-- The six tables created by create_tables, plus the fresh-id counter. -/
structure DB where
  song : List Row
  album : List Row
  artist : List Row
  song_album : List Row
  song_artist : List Row
  album_artist : List Row
  nextId : Nat
deriving DecidableEq

inductive TableId where
  | song
  | album
  | artist
  | song_album
  | song_artist
  | album_artist
deriving DecidableEq

/-- Resolution of a table name appearing in SQL text to an actual table;
an unknown name is a SQL error. -/
def parseTableName (t : String) : Option TableId :=
  if t = "song" then some .song
  else if t = "album" then some .album
  else if t = "artist" then some .artist
  else if t = "song_album" then some .song_album
  else if t = "song_artist" then some .song_artist
  else if t = "album_artist" then some .album_artist
  else none

def getRows (db : DB) : TableId → List Row
  | .song => db.song
  | .album => db.album
  | .artist => db.artist
  | .song_album => db.song_album
  | .song_artist => db.song_artist
  | .album_artist => db.album_artist

def setRows (db : DB) : TableId → List Row → DB
  | .song, rs => { db with song := rs }
  | .album, rs => { db with album := rs }
  | .artist, rs => { db with artist := rs }
  | .song_album, rs => { db with song_album := rs }
  | .song_artist, rs => { db with song_artist := rs }
  | .album_artist, rs => { db with album_artist := rs }

/-- Column lists of the CREATE TABLE statements in create_tables. -/
def schemaOf : TableId → List String
  | .song =>
    ["id", "comment", "title", "valence", "arousal",
     "danceable_not_danceable", "aggressive_non_aggressive",
     "happy_non_happy", "party_non_party", "relaxed_non_relaxed",
     "sad_non_sad", "acoustic_non_acoustic", "electronic_non_electronic",
     "instrumental_voice", "female_male", "bright_dark",
     "acoustic_electronic", "dry_wet", "bpm"]
  | .album => ["id", "title", "date"]
  | .artist => ["id", "name"]
  | .song_album => ["id", "song_id", "album_id", "tracknumber"]
  | .song_artist => ["id", "song_id", "artist_id"]
  | .album_artist => ["id", "album_id", "artist_id"]

/-- Value of column `c` in row `r`; an unbound column is SQL NULL. -/
def rowVal (r : Row) (c : String) : Val :=
  (r.lookup c).getD .vNull

/-- The id column of a row, as a surrogate key (SELECT id ... fetchone). -/
def rowIdNat (r : Row) : Option Nat :=
  match rowVal r "id" with
  | .vUuid n => some n
  | _ => none

/-- SQL equality semantics: a comparison with NULL is never true. -/
def sqlEq : Val → Val → Bool
  | .vNull, _ => false
  | _, .vNull => false
  | a, b => a == b

/-- One row satisfies the conjunction of equality conditions; the i-th
condition column is compared against the i-th bound value (positional
placeholder filling). -/
def matchesCond (conds : List String) (vals : List Val) (r : Row) : Bool :=
  (conds.zip vals).all fun cv => sqlEq (rowVal r cv.1) cv.2

/-- SELECT id FROM tbl WHERE c1 = %s AND ... executed with fetchone.
Outer `none` is a SQL error (unknown table, unknown column, empty WHERE,
placeholder arity mismatch); `some none` is "no row"; `some (some r)` the
first matching row. -/
def selectFirst (db : DB) (tbl : String) (conds : List String)
    (vals : List Val) : Option (Option Row) :=
  match parseTableName tbl with
  | none => none
  | some tid =>
    if !conds.isEmpty && conds.all (fun c => (schemaOf tid).contains c)
        && vals.length == conds.length then
      some ((getRows db tid).find? (matchesCond conds vals))
    else none

/-- FOREIGN KEY targets declared in create_tables. -/
def fkTarget (c : String) : Option String :=
  if c = "song_id" then some "song"
  else if c = "album_id" then some "album"
  else if c = "artist_id" then some "artist"
  else none

/-- Foreign key admissibility of binding value `v` to column `c`:
NULL always passes, a uuid must belong to the referenced table, anything
else is a type error (insert fails). -/
def fkCheck (db : DB) (c : String) (v : Val) : Bool :=
  match fkTarget c with
  | none => true
  | some tname =>
    match v with
    | .vNull => true
    | .vUuid n =>
      match parseTableName tname with
      | some tid => (getRows db tid).any fun r => rowIdNat r == some n
      | none => false
    | _ => false

/-- INSERT INTO tbl (cols) VALUES (vals) RETURNING id.  `none` is a
failed insert (caught by the callers, transaction rolled back).  If the
id column is not among cols the server-side default gen_random_uuid()
fills it from the fresh counter. -/
def insertRow (db : DB) (tbl : String) (cols : List String)
    (vals : List Val) : Option (Nat × DB) :=
  match parseTableName tbl with
  | none => none
  | some tid =>
    if cols.all (fun c => (schemaOf tid).contains c)
        && vals.length == cols.length then
      let zipped := cols.zip vals
      if zipped.all (fun cv => fkCheck db cv.1 cv.2) then
        if cols.contains "id" then
          match zipped.lookup "id" with
          | some (.vUuid n) =>
            some (n, setRows db tid (getRows db tid ++ [zipped]))
          | _ => none
        else
          some (db.nextId,
            { setRows db tid
                (getRows db tid ++ [("id", Val.vUuid db.nextId) :: zipped])
              with nextId := db.nextId + 1 })
      else none
    else none

/-- Strip leading and trailing whitespace (what Python int() does before
parsing). -/
def pyTrim (cs : List Char) : List Char :=
  (((cs.dropWhile Char.isWhitespace).reverse).dropWhile
    Char.isWhitespace).reverse

/-- A nonempty all-digit character run, as a number. -/
def digitsToNat? (cs : List Char) : Option Nat :=
  if cs.isEmpty then none
  else if cs.all Char.isDigit then
    some (cs.foldl (fun acc c => acc * 10 + (c.toNat - 48)) 0)
  else none

/-- Python int() on a character sequence: strip whitespace, optional
sign, digits; `none` is the ValueError. -/
def pyIntChars (cs : List Char) : Option Int :=
  match pyTrim cs with
  | '-' :: rest => (digitsToNat? rest).map fun n => -(n : Int)
  | '+' :: rest => (digitsToNat? rest).map fun n => (n : Int)
  | other => (digitsToNat? other).map fun n => (n : Int)

/-- Python int(s) on a string. -/
def pyStrToInt (s : String) : Option Int :=
  pyIntChars s.data

/-- Python int(v): ValueError on a malformed string, TypeError on values
that are not numbers or strings. -/
def pyIntOfVal : Val → Except PyErr Int
  | .vStr s =>
    match pyStrToInt s with
    | some n => .ok n
    | none => .error .valueError
  | .vNum n => .ok n
  | _ => .error .typeError

def isLeapYear (y : Nat) : Bool :=
  (y % 4 == 0 && y % 100 != 0) || y % 400 == 0

def daysInMonth (y m : Nat) : Nat :=
  if m = 2 then (if isLeapYear y then 29 else 28)
  else if m = 4 || m = 6 || m = 9 || m = 11 then 30
  else 31

/-- Python datetime.date(y, m, d): `none` is the ValueError raised for
arguments outside the calendar range (year 1..9999). -/
def pyDate (y m d : Int) : Option Val :=
  if 1 ≤ y && y ≤ 9999 && 1 ≤ m && m ≤ 12 && 1 ≤ d
      && d ≤ (daysInMonth y.toNat m.toNat : Int) then
    some (.vDate y.toNat m.toNat d.toNat)
  else none

/-- Python v[i]: pairs and strings are subscriptable, everything else
raises (TypeError / IndexError, both uncaught by the code). -/
def pySub (v : Val) (i : Nat) : Option Val :=
  match v with
  | .vPair a b =>
    if i = 0 then some (.vNum a) else if i = 1 then some (.vNum b) else none
  | .vStr s => (s.toList[i]?).map fun ch => .vStr (String.mk [ch])
  | _ => none

/-- The source-record key names mapped to stored column names inside
is_row_in_table (sql_columns_mapping). -/
def mapColumnName (c : String) : String :=
  if c = "album" then "title" else if c = "artist" then "name" else c

/-- The value-collection loop of is_row_in_table: iterate the record in
insertion order and keep the values whose key is among the lookup
columns, normalizing a "date" value via date(int(v), 1, 1).  The int()
and date() calls sit outside any try block in the source, so their
errors propagate. -/
def lookupVals (columns : List String) : Record → Except PyErr (List Val)
  | [] => .ok []
  | (k, v) :: rest =>
    if columns.contains k then
      if k = "date" then
        match pyIntOfVal v with
        | .error e => .error e
        | .ok y =>
          match pyDate y 1 1 with
          | none => .error .valueError
          | some dv => (lookupVals columns rest).map fun vs => dv :: vs
      else (lookupVals columns rest).map fun vs => v :: vs
    else lookupVals columns rest

/-- DBConnector.is_row_in_table: build the WHERE conjunction over the
mapped lookup columns, bind the record values positionally, run the
lookup (errors during execution are caught and mean "no match"), and on
a hit print song_dict[columns[0]] (a dict access) before returning the
row id. -/
def is_row_in_table (db : DB) (table_name : String) (columns : List String)
    (d : Record) : Except PyErr (Option Nat) :=
  match lookupVals columns d with
  | .error e => .error e
  | .ok vals =>
    match selectFirst db table_name (columns.map mapColumnName) vals with
    | none => .ok none
    | some none => .ok none
    | some (some r) =>
      match columns with
      | [] => .error .typeError
      | c0 :: _ =>
        match d.lookup c0 with
        | none => .error .keyError
        | some _ => .ok (rowIdNat r)

/-- psycopg adaptation of a UUID-or-None argument. -/
def optVal : Option Nat → Val
  | some n => .vUuid n
  | none => .vNull

/-- DBConnector.is_relation_in_table: SELECT id FROM rel_table WHERE
first_table_id = %s AND second_table_id = %s; an execution error is
caught and falls through to the implicit None. -/
def is_relation_in_table (db : DB) (rel_table first_table : String)
    (first_id : Option Nat) (second_table : String)
    (second_id : Option Nat) : Option Nat :=
  match selectFirst db rel_table
      [first_table ++ "_id", second_table ++ "_id"]
      [optVal first_id, optVal second_id] with
  | none => none
  | some none => none
  | some (some r) => rowIdNat r

/-- DBConnector.add_relation: return the existing relation id if the
pairing exists, else insert the two foreign ids with a fresh surrogate
id; an insert failure is caught, rolled back and returns None. -/
def add_relation (db : DB) (rel_table first_table : String)
    (first_id : Option Nat) (second_table : String)
    (second_id : Option Nat) : Option Nat × DB :=
  match is_relation_in_table db rel_table first_table first_id
      second_table second_id with
  | some rid => (some rid, db)
  | none =>
    match insertRow db rel_table
        [first_table ++ "_id", second_table ++ "_id"]
        [optVal first_id, optVal second_id] with
    | none => (none, db)
    | some (rid, db1) => (some rid, db1)

/-- Column names of the live song table as discovered by
SELECT * FROM song LIMIT 0 (identical to schemaOf .song). -/
def songColumns : List String := schemaOf .song

def songLookupColumns : List String :=
  ["title", "happy_non_happy", "sad_non_sad"]

/-- The only keys the add_song insert loop drops. -/
def droppedSongKeys : List String :=
  ["album", "artist", "date", "tracknumber"]

/-- The value-selection loop of add_song: iterate the record in insertion
order, drop album/artist/date/tracknumber, expand valence_arousal via
value[0] and value[1] (uncaught TypeError/IndexError on a value that is
not a pair), and keep every other value, recognized or not. -/
def buildSongValues : Record → Except PyErr (List Val)
  | [] => .ok []
  | (k, v) :: rest =>
    if droppedSongKeys.contains k then buildSongValues rest
    else if k = "valence_arousal" then
      match pySub v 0, pySub v 1 with
      | some a, some b => (buildSongValues rest).map fun vs => a :: b :: vs
      | _, _ => .error .typeError
    else (buildSongValues rest).map fun vs => v :: vs

/-- DBConnector.add_song: fingerprint lookup, then positional INSERT of
[uuid4()] ++ selected record values into the live column list.  Both the
failure and the success print interpolate song_dict["title"], an uncaught
dict access; on the success path that exception unwinds the connection
context, rolling the insert back. -/
def add_song (db : DB) (d : Record) : Except PyErr (Option Nat) × DB :=
  match is_row_in_table db "song" songLookupColumns d with
  | .error e => (.error e, db)
  | .ok (some sid) => (.ok (some sid), db)
  | .ok none =>
    let uid := db.nextId
    let db1 := { db with nextId := db.nextId + 1 }
    match buildSongValues d with
    | .error e => (.error e, db1)
    | .ok vals =>
      match insertRow db1 "song" songColumns (Val.vUuid uid :: vals) with
      | none =>
        match d.lookup "title" with
        | none => (.error .keyError, db1)
        | some _ => (.ok none, db1)
      | some (rid, db2) =>
        match d.lookup "title" with
        | none => (.error .keyError, db1)
        | some _ => (.ok (some rid), db2)

/-- DBConnector.add_album: lookup on ["album", "date"], then require the
"album" key, then year = int(song_dict["date"]) catching only ValueError
(KeyError on a missing date propagates), then date(year, 1, 1) outside
any try, then INSERT INTO album (title, date). -/
def add_album (db : DB) (d : Record) : Except PyErr (Option Nat) × DB :=
  match is_row_in_table db "album" ["album", "date"] d with
  | .error e => (.error e, db)
  | .ok (some aid) => (.ok (some aid), db)
  | .ok none =>
    if halb : (d.lookup "album").isSome then
      match d.lookup "date" with
      | none => (.error .keyError, db)
      | some dateV =>
        match pyIntOfVal dateV with
        | .error .valueError => (.ok none, db)
        | .error e => (.error e, db)
        | .ok year =>
          match pyDate year 1 1 with
          | none => (.error .valueError, db)
          | some dv =>
            match insertRow db "album" ["title", "date"]
                [(d.lookup "album").get halb, dv] with
            | none => (.ok none, db)
            | some (aid, db1) => (.ok (some aid), db1)
    else (.ok none, db)

/-- DBConnector.add_artist: lookup on ["artist"], then INSERT INTO artist
(name); the KeyError on a missing "artist" key is caught and returns
None. -/
def add_artist (db : DB) (d : Record) : Except PyErr (Option Nat) × DB :=
  match is_row_in_table db "artist" ["artist"] d with
  | .error e => (.error e, db)
  | .ok (some tid) => (.ok (some tid), db)
  | .ok none =>
    match d.lookup "artist" with
    | none => (.ok none, db)
    | some v =>
      match insertRow db "artist" ["name"] [v] with
      | none => (.ok none, db)
      | some (tid, db1) => (.ok (some tid), db1)

/-- DBConnector.add_data: the per-record orchestration.  The three
dimension upserts run unconditionally and their results (possibly None)
are passed straight into the three add_relation calls; nothing checks
for a missing identity. -/
def add_data (db : DB) (d : Record) : Except PyErr Unit × DB :=
  match add_song db d with
  | (.error e, db1) => (.error e, db1)
  | (.ok sid, db1) =>
    match add_album db1 d with
    | (.error e, db2) => (.error e, db2)
    | (.ok aid, db2) =>
      match add_artist db2 d with
      | (.error e, db3) => (.error e, db3)
      | (.ok art, db3) =>
        let r1 := add_relation db3 "song_album" "song" sid "album" aid
        let r2 := add_relation r1.2 "song_artist" "song" sid "artist" art
        let r3 := add_relation r2.2 "album_artist" "album" aid "artist" art
        (.ok (), r3.2)

/-- Python re `$` also matches just before a trailing newline. -/
def stripDollarNewline (cs : List Char) : List Char :=
  if cs.getLast? = some '\n' then cs.dropLast else cs

/-- Python str.split("-"). -/
def splitOnDash : List Char → List (List Char)
  | [] => [[]]
  | c :: rest =>
    let r := splitOnDash rest
    if c = '-' then [] :: r
    else
      match r with
      | h :: t => (c :: h) :: t
      | [] => [[c]]

/-- Match against a pattern of digit groups separated by single dashes,
anchored at both ends (the shapes of the three date regexes). -/
def digitsGroups (cs : List Char) (lens : List Nat) : Bool :=
  let parts := splitOnDash cs
  parts.length == lens.length &&
    (parts.zip lens).all fun pl =>
      pl.1.length == pl.2 && pl.1.all Char.isDigit

/-- DBConnector.get_correct_date_format: try the three accepted shapes
(YYYY-MM-DD, YYYY-MM, YYYY); on a regex hit the date() constructor runs
outside any try, so out-of-range components raise ValueError; on no hit
print the invalid format and return None. -/
def get_correct_date_format (date_string : String) :
    Except PyErr (Option Val) :=
  let t := stripDollarNewline date_string.data
  if digitsGroups t [4, 2, 2] then
    match splitOnDash date_string.data with
    | [ys, ms, ds] =>
      match pyIntChars ys, pyIntChars ms, pyIntChars ds with
      | some y, some m, some dd =>
        match pyDate y m dd with
        | some dv => .ok (some dv)
        | none => .error .valueError
      | _, _, _ => .error .valueError
    | _ => .error .valueError
  else if digitsGroups t [4, 2] then
    match splitOnDash date_string.data with
    | [ys, ms] =>
      match pyIntChars ys, pyIntChars ms with
      | some y, some m =>
        match pyDate y m 1 with
        | some dv => .ok (some dv)
        | none => .error .valueError
      | _, _ => .error .valueError
    | _ => .error .valueError
  else if digitsGroups t [4] then
    match pyStrToInt date_string with
    | some y =>
      match pyDate y 1 1 with
      | some dv => .ok (some dv)
      | none => .error .valueError
    | none => .error .valueError
  else .ok none

/-- A song record whose recognized keys stand in the canonical order of
the live song table columns (the shape the feature-extraction collaborator
produces): the positional INSERT then stores every value in its intended
column, and the fingerprint lookup binds title, happy_non_happy and
sad_non_sad correctly. -/
def canonicalSongRecord (c t : Val) (va1 va2 : Int)
    (f1 f2 f3 f4 f5 f6 f7 f8 f9 f10 f11 f12 f13 fbpm : Val) : Record :=
  [("comment", c), ("title", t), ("valence_arousal", .vPair va1 va2),
   ("danceable_not_danceable", f1), ("aggressive_non_aggressive", f2),
   ("happy_non_happy", f3), ("party_non_party", f4),
   ("relaxed_non_relaxed", f5), ("sad_non_sad", f6),
   ("acoustic_non_acoustic", f7), ("electronic_non_electronic", f8),
   ("instrumental_voice", f9), ("female_male", f10), ("bright_dark", f11),
   ("acoustic_electronic", f12), ("dry_wet", f13), ("bpm", fbpm)]

def dbEmpty : DB := ⟨[], [], [], [], [], [], 0⟩

def sampleSongRecord : Record :=
  canonicalSongRecord (.vStr "c") (.vStr "A") 5 6 (.vNum 1) (.vNum 2)
    (.vNum 3) (.vNum 4) (.vNum 5) (.vNum 6) (.vNum 7) (.vNum 8) (.vNum 9)
    (.vNum 10) (.vNum 11) (.vNum 12) (.vNum 13) (.vNum 14)

/-- The same mapping as sampleSongRecord, with the title and comment keys
swapped in insertion order. -/
def swappedSongRecord : Record :=
  [("title", Val.vStr "A"), ("comment", Val.vStr "c")] ++
    sampleSongRecord.drop 2

/-- The same mapping as sampleSongRecord, with the sad_non_sad key moved
ahead of happy_non_happy in insertion order. -/
def reorderedSongRecord : Record :=
  [("comment", .vStr "c"), ("title", .vStr "A"), ("sad_non_sad", .vNum 6),
   ("valence_arousal", .vPair 5 6),
   ("danceable_not_danceable", .vNum 1), ("aggressive_non_aggressive", .vNum 2),
   ("happy_non_happy", .vNum 3), ("party_non_party", .vNum 4),
   ("relaxed_non_relaxed", .vNum 5),
   ("acoustic_non_acoustic", .vNum 7), ("electronic_non_electronic", .vNum 8),
   ("instrumental_voice", .vNum 9), ("female_male", .vNum 10),
   ("bright_dark", .vNum 11), ("acoustic_electronic", .vNum 12),
   ("dry_wet", .vNum 13), ("bpm", .vNum 14)]

def sampleFullRecord : Record :=
  [("album", .vStr "M"), ("artist", .vStr "X"), ("date", .vStr "1955"),
   ("tracknumber", .vStr "")] ++ sampleSongRecord

/-- A full record whose date is no integer year ("Hello"). -/
def badDateRecord : Record :=
  [("album", .vStr "M"), ("artist", .vStr "X"), ("date", .vStr "Hello"),
   ("tracknumber", .vStr "")] ++ sampleSongRecord

/-- A full record with a year-month date, one of the three spec shapes. -/
def ymDateRecord : Record :=
  [("album", .vStr "M"), ("artist", .vStr "X"), ("date", .vStr "1999-12"),
   ("tracknumber", .vStr "")] ++ sampleSongRecord

/-- A record with an album but no date key at all. -/
def noDateRecord : Record :=
  [("album", .vStr "M"), ("artist", .vStr "X")] ++ sampleSongRecord

/-- A full record with one extra unrecognized key. -/
def extraKeyRecord : Record :=
  sampleFullRecord ++ [("lyrics", .vStr "la")]

/-- A full record with no artist key. -/
def noArtistRecord : Record :=
  [("album", .vStr "M"), ("date", .vStr "1955"), ("tracknumber", .vStr "")]
    ++ sampleSongRecord

/-- The keys of a record in insertion order. -/
def recordKeys (d : Record) : List String := d.map Prod.fst

/-- One table evolved by appending at most one row: existing rows are
untouched. -/
def tableExtends (old new : List Row) : Prop :=
  new = old ∨ ∃ r, new = old ++ [r]

/-- Every table of db2 is the corresponding table of db1 with at most one
row appended. -/
def dbExtends (db1 db2 : DB) : Prop :=
  ∀ tid : TableId, tableExtends (getRows db1 tid) (getRows db2 tid)

/-- A store with one song row (id 0) and one album row (id 1). -/
def dbRelW : DB :=
  ⟨[[("id", Val.vUuid 0)]], [[("id", Val.vUuid 1)]], [], [], [], [], 2⟩

theorem getRows_setRows_self (db : DB) (tid : TableId) (rs : List Row) :
    getRows (setRows db tid rs) tid = rs := by
  cases tid <;> rfl

theorem getRows_setRows_ne (db : DB) (tid tid2 : TableId) (rs : List Row)
    (h : tid2 ≠ tid) : getRows (setRows db tid rs) tid2 = getRows db tid2 := by
  cases tid <;> cases tid2 <;> first
    | rfl
    | exact absurd rfl h

theorem getRows_nextId (db : DB) (n : Nat) (tid : TableId) :
    getRows { db with nextId := n } tid = getRows db tid := by
  cases tid <;> rfl

theorem dbExtends_refl (db : DB) : dbExtends db db := fun _ => Or.inl rfl

theorem dbExtends_eq (db1 db2 : DB)
    (h : ∀ tid, getRows db1 tid = getRows db2 tid) : dbExtends db1 db2 :=
  fun tid => Or.inl (h tid).symm

theorem dbExtends_trans_eq (db1 db2 db3 : DB)
    (h : ∀ tid, getRows db1 tid = getRows db2 tid)
    (h2 : dbExtends db2 db3) : dbExtends db1 db3 :=
  fun tid => (h tid) ▸ h2 tid

theorem getRows_setRows_nextId_self (db : DB) (tid : TableId)
    (rs : List Row) (n : Nat) :
    getRows { setRows db tid rs with nextId := n } tid = rs := by
  cases tid <;> rfl

theorem getRows_setRows_nextId_ne (db : DB) (tid tid2 : TableId)
    (rs : List Row) (n : Nat) (h : tid2 ≠ tid) :
    getRows { setRows db tid rs with nextId := n } tid2 = getRows db tid2 := by
  cases tid <;> cases tid2 <;> first
    | rfl
    | exact absurd rfl h

theorem insertRow_dbExtends (db : DB) (tbl : String) (cols : List String)
    (vals : List Val) (k : Nat) (db2 : DB)
    (h : insertRow db tbl cols vals = some (k, db2)) : dbExtends db db2 := by
  unfold insertRow at h
  split at h
  · exact absurd h (by simp)
  next tid hp =>
    dsimp only [] at h
    split at h
    case isFalse => exact absurd h (by simp)
    case isTrue =>
      split at h
      case isFalse => exact absurd h (by simp)
      case isTrue =>
        split at h
        case isTrue =>
          split at h
          next n hlk =>
            injection h with h2
            injection h2 with ha hb
            subst hb
            intro tid2
            by_cases htid : tid2 = tid
            · subst htid
              rw [getRows_setRows_self]
              exact Or.inr ⟨_, rfl⟩
            · rw [getRows_setRows_ne _ _ _ _ htid]
              exact Or.inl rfl
          · exact absurd h (by simp)
        case isFalse =>
          injection h with h2
          injection h2 with ha hb
          subst hb
          intro tid2
          by_cases htid : tid2 = tid
          · subst htid
            rw [getRows_setRows_nextId_self]
            exact Or.inr ⟨_, rfl⟩
          · rw [getRows_setRows_nextId_ne _ _ _ _ _ htid]
            exact Or.inl rfl

theorem add_song_dbExtends (db : DB) (d : Record) :
    dbExtends db (add_song db d).2 := by
  unfold add_song
  split
  · exact dbExtends_refl db
  · exact dbExtends_refl db
  · dsimp only []
    split
    · exact dbExtends_eq _ _ fun tid => (getRows_nextId db _ tid).symm
    · split
      · split
        · exact dbExtends_eq _ _ fun tid => (getRows_nextId db _ tid).symm
        · exact dbExtends_eq _ _ fun tid => (getRows_nextId db _ tid).symm
      next rid db2 heq =>
        split
        · exact dbExtends_eq _ _ fun tid => (getRows_nextId db _ tid).symm
        · exact dbExtends_trans_eq db _ db2
            (fun tid => (getRows_nextId db _ tid).symm)
            (insertRow_dbExtends _ _ _ _ _ _ heq)

theorem add_album_dbExtends (db : DB) (d : Record) :
    dbExtends db (add_album db d).2 := by
  unfold add_album
  split
  · exact dbExtends_refl db
  · exact dbExtends_refl db
  · split
    · split
      · exact dbExtends_refl db
      · split
        · exact dbExtends_refl db
        · exact dbExtends_refl db
        · split
          · exact dbExtends_refl db
          · split
            · exact dbExtends_refl db
            next aid db1 heq =>
              exact insertRow_dbExtends _ _ _ _ _ _ heq
    · exact dbExtends_refl db

theorem add_artist_dbExtends (db : DB) (d : Record) :
    dbExtends db (add_artist db d).2 := by
  unfold add_artist
  split
  · exact dbExtends_refl db
  · exact dbExtends_refl db
  · split
    · exact dbExtends_refl db
    · split
      · exact dbExtends_refl db
      next tid db1 heq =>
        exact insertRow_dbExtends _ _ _ _ _ _ heq

theorem add_relation_dbExtends (db : DB) (rel ft : String) (fid : Option Nat)
    (st : String) (sid : Option Nat) :
    dbExtends db (add_relation db rel ft fid st sid).2 := by
  unfold add_relation
  split
  · exact dbExtends_refl db
  · split
    · exact dbExtends_refl db
    next rid db1 heq =>
      exact insertRow_dbExtends _ _ _ _ _ _ heq

theorem sqlEq_uuid (a b : Nat) : sqlEq (Val.vUuid a) (Val.vUuid b) = (a == b) := by
  simp [sqlEq]

theorem add_relation_insert_once (db : DB) (relT fT sT : String) (a b : Nat)
    (tid : TableId)
    (hparse : parseTableName relT = some tid)
    (hc1 : (fT ++ "_id") ∈ schemaOf tid)
    (hc2 : (sT ++ "_id") ∈ schemaOf tid)
    (hid1 : fT ++ "_id" ≠ "id") (hid2 : sT ++ "_id" ≠ "id")
    (hfk1 : fkCheck db (fT ++ "_id") (Val.vUuid a) = true)
    (hfk2 : fkCheck db (sT ++ "_id") (Val.vUuid b) = true)
    (hnone : ∀ r ∈ getRows db tid,
      matchesCond [fT ++ "_id", sT ++ "_id"] [Val.vUuid a, Val.vUuid b] r
        = false) :
    add_relation db relT fT (some a) sT (some b)
      = (some db.nextId,
        { setRows db tid (getRows db tid ++
            [[("id", Val.vUuid db.nextId), (fT ++ "_id", Val.vUuid a),
              (sT ++ "_id", Val.vUuid b)]])
          with nextId := db.nextId + 1 }) := by
  have hfind : (getRows db tid).find?
      (matchesCond [fT ++ "_id", sT ++ "_id"] [Val.vUuid a, Val.vUuid b])
        = none :=
    List.find?_eq_none.mpr fun r hr => by simp [hnone r hr]
  have hsel : selectFirst db relT [fT ++ "_id", sT ++ "_id"]
      [optVal (some a), optVal (some b)] = some none := by
    unfold selectFirst
    rw [hparse]
    dsimp only [optVal]
    rw [if_pos (by simp [hc1, hc2])]
    rw [hfind]
  have hrel : is_relation_in_table db relT fT (some a) sT (some b) = none := by
    unfold is_relation_in_table
    rw [hsel]
  have hins : insertRow db relT [fT ++ "_id", sT ++ "_id"]
      [optVal (some a), optVal (some b)]
      = some (db.nextId,
        { setRows db tid (getRows db tid ++
            [[("id", Val.vUuid db.nextId), (fT ++ "_id", Val.vUuid a),
              (sT ++ "_id", Val.vUuid b)]])
          with nextId := db.nextId + 1 }) := by
    unfold insertRow
    rw [hparse]
    dsimp only [optVal]
    rw [if_pos (by simp [hc1, hc2])]
    rw [if_pos (by simp [hfk1, hfk2])]
    rw [if_neg (by simp [Ne.symm hid1, Ne.symm hid2])]
    rfl
  unfold add_relation
  rw [hrel, hins]

theorem newRelRow_matches (fT sT : String) (a b k : Nat)
    (hid1 : fT ++ "_id" ≠ "id") (hid2 : sT ++ "_id" ≠ "id")
    (hfs : fT ++ "_id" ≠ sT ++ "_id") :
    matchesCond [fT ++ "_id", sT ++ "_id"] [Val.vUuid a, Val.vUuid b]
      [("id", Val.vUuid k), (fT ++ "_id", Val.vUuid a),
        (sT ++ "_id", Val.vUuid b)] = true := by
  have e1 : ((fT ++ "_id" : String) == "id") = false :=
    beq_eq_false_iff_ne.mpr hid1
  have e2 : ((sT ++ "_id" : String) == "id") = false :=
    beq_eq_false_iff_ne.mpr hid2
  have e3 : ((sT ++ "_id" : String) == fT ++ "_id") = false :=
    beq_eq_false_iff_ne.mpr (Ne.symm hfs)
  simp [matchesCond, rowVal, List.lookup, e1, e2, e3, sqlEq_uuid]

/-- C2: for every valid pair of surrogate ids (a, b) referencing existing
dimension rows, calling add_relation twice with the same relation table
and the same two ids yields the same relation identity both times and
leaves exactly one matching relation row in that table: the second call
returns the existing row's id without inserting. -/
theorem add_relation_idempotent (db : DB) (relT fT sT : String) (a b : Nat)
    (tid : TableId)
    (hparse : parseTableName relT = some tid)
    (hc1 : (fT ++ "_id") ∈ schemaOf tid)
    (hc2 : (sT ++ "_id") ∈ schemaOf tid)
    (hid1 : fT ++ "_id" ≠ "id") (hid2 : sT ++ "_id" ≠ "id")
    (hfs : fT ++ "_id" ≠ sT ++ "_id")
    (hfk1 : fkCheck db (fT ++ "_id") (Val.vUuid a) = true)
    (hfk2 : fkCheck db (sT ++ "_id") (Val.vUuid b) = true)
    (hnone : ∀ r ∈ getRows db tid,
      matchesCond [fT ++ "_id", sT ++ "_id"] [Val.vUuid a, Val.vUuid b] r
        = false) :
    ∃ k,
      (add_relation db relT fT (some a) sT (some b)).1 = some k ∧
      (add_relation (add_relation db relT fT (some a) sT (some b)).2
          relT fT (some a) sT (some b)).1 = some k ∧
      (add_relation (add_relation db relT fT (some a) sT (some b)).2
          relT fT (some a) sT (some b)).2
        = (add_relation db relT fT (some a) sT (some b)).2 ∧
      getRows (add_relation db relT fT (some a) sT (some b)).2 tid
        = getRows db tid ++
          [[("id", Val.vUuid db.nextId), (fT ++ "_id", Val.vUuid a),
            (sT ++ "_id", Val.vUuid b)]] ∧
      (getRows (add_relation db relT fT (some a) sT (some b)).2 tid).countP
          (matchesCond [fT ++ "_id", sT ++ "_id"]
            [Val.vUuid a, Val.vUuid b]) = 1 := by
  have hmatch := newRelRow_matches fT sT a b db.nextId hid1 hid2 hfs
  have hfind : (getRows db tid).find?
      (matchesCond [fT ++ "_id", sT ++ "_id"] [Val.vUuid a, Val.vUuid b])
        = none :=
    List.find?_eq_none.mpr fun r hr => by simp [hnone r hr]
  have H := add_relation_insert_once db relT fT sT a b tid hparse hc1 hc2
    hid1 hid2 hfk1 hfk2 hnone
  rw [H]
  dsimp only []
  have hrows1 : getRows
      ({ setRows db tid (getRows db tid ++
          [[("id", Val.vUuid db.nextId), (fT ++ "_id", Val.vUuid a),
            (sT ++ "_id", Val.vUuid b)]])
        with nextId := db.nextId + 1 }) tid
      = getRows db tid ++
        [[("id", Val.vUuid db.nextId), (fT ++ "_id", Val.vUuid a),
          (sT ++ "_id", Val.vUuid b)]] :=
    getRows_setRows_nextId_self db tid _ _
  have hfind1 : (getRows db tid ++
      [[("id", Val.vUuid db.nextId), (fT ++ "_id", Val.vUuid a),
        (sT ++ "_id", Val.vUuid b)]]).find?
      (matchesCond [fT ++ "_id", sT ++ "_id"] [Val.vUuid a, Val.vUuid b])
      = some [("id", Val.vUuid db.nextId), (fT ++ "_id", Val.vUuid a),
          (sT ++ "_id", Val.vUuid b)] := by
    rw [List.find?_append, hfind]
    simp [List.find?_cons, hmatch]
  have hsel1 : selectFirst
      ({ setRows db tid (getRows db tid ++
          [[("id", Val.vUuid db.nextId), (fT ++ "_id", Val.vUuid a),
            (sT ++ "_id", Val.vUuid b)]])
        with nextId := db.nextId + 1 }) relT
      [fT ++ "_id", sT ++ "_id"] [optVal (some a), optVal (some b)]
      = some (some [("id", Val.vUuid db.nextId), (fT ++ "_id", Val.vUuid a),
          (sT ++ "_id", Val.vUuid b)]) := by
    unfold selectFirst
    rw [hparse]
    dsimp only [optVal]
    rw [if_pos (by simp [hc1, hc2])]
    rw [hrows1, hfind1]
  have hrel1 : is_relation_in_table
      ({ setRows db tid (getRows db tid ++
          [[("id", Val.vUuid db.nextId), (fT ++ "_id", Val.vUuid a),
            (sT ++ "_id", Val.vUuid b)]])
        with nextId := db.nextId + 1 }) relT fT (some a) sT (some b)
      = some db.nextId := by
    unfold is_relation_in_table
    rw [hsel1]
    rfl
  have H2 : add_relation
      ({ setRows db tid (getRows db tid ++
          [[("id", Val.vUuid db.nextId), (fT ++ "_id", Val.vUuid a),
            (sT ++ "_id", Val.vUuid b)]])
        with nextId := db.nextId + 1 }) relT fT (some a) sT (some b)
      = (some db.nextId,
        { setRows db tid (getRows db tid ++
            [[("id", Val.vUuid db.nextId), (fT ++ "_id", Val.vUuid a),
              (sT ++ "_id", Val.vUuid b)]])
          with nextId := db.nextId + 1 }) := by
    unfold add_relation
    rw [hrel1]
  rw [H2]
  refine ⟨db.nextId, rfl, rfl, rfl, hrows1, ?_⟩
  rw [hrows1, List.countP_append]
  rw [List.countP_eq_zero.mpr fun r hr => by simp [hnone r hr]]
  simp [List.countP_cons, hmatch]

theorem add_relation_idempotent_witness :
    parseTableName "song_album" = some TableId.song_album ∧
    fkCheck dbRelW "song_id" (Val.vUuid 0) = true ∧
    fkCheck dbRelW "album_id" (Val.vUuid 1) = true ∧
    (∃ k,
      (add_relation dbRelW "song_album" "song" (some 0) "album" (some 1)).1
        = some k ∧
      (add_relation
          (add_relation dbRelW "song_album" "song" (some 0) "album"
            (some 1)).2
          "song_album" "song" (some 0) "album" (some 1)).1 = some k ∧
      (add_relation
          (add_relation dbRelW "song_album" "song" (some 0) "album"
            (some 1)).2
          "song_album" "song" (some 0) "album" (some 1)).2
        = (add_relation dbRelW "song_album" "song" (some 0) "album"
            (some 1)).2 ∧
      getRows (add_relation dbRelW "song_album" "song" (some 0) "album"
          (some 1)).2 TableId.song_album
        = getRows dbRelW TableId.song_album ++
          [[("id", Val.vUuid dbRelW.nextId), ("song_id", Val.vUuid 0),
            ("album_id", Val.vUuid 1)]] ∧
      (getRows (add_relation dbRelW "song_album" "song" (some 0) "album"
          (some 1)).2 TableId.song_album).countP
          (matchesCond ["song_id", "album_id"]
            [Val.vUuid 0, Val.vUuid 1]) = 1) :=
  ⟨rfl, rfl, rfl,
    add_relation_idempotent dbRelW "song_album" "song" "album" 0 1
      TableId.song_album rfl (by decide) (by decide) (by decide) (by decide)
      (by decide) rfl rfl
      (fun r hr => absurd hr (List.not_mem_nil r))⟩

theorem lookupVals_length (columns : List String) (d : Record)
    (vals : List Val) (h : lookupVals columns d = .ok vals) :
    vals.length = (recordKeys d).countP (fun k => columns.contains k) := by
  induction d generalizing vals with
  | nil =>
    unfold lookupVals at h
    cases h
    rfl
  | cons kv rest ih =>
    obtain ⟨k, v⟩ := kv
    unfold lookupVals at h
    by_cases hc : columns.contains k = true
    · have hm : k ∈ columns := List.elem_iff.mp hc
      rw [if_pos hc] at h
      by_cases hd : k = "date"
      · rw [if_pos hd] at h
        cases hpi : pyIntOfVal v with
        | error e => rw [hpi] at h; exact absurd h (by simp)
        | ok y =>
          rw [hpi] at h
          dsimp only [] at h
          cases hpd : pyDate y 1 1 with
          | none => rw [hpd] at h; exact absurd h (by simp)
          | some dv =>
            rw [hpd] at h
            dsimp only [] at h
            cases hrest : lookupVals columns rest with
            | error e =>
              rw [hrest] at h
              exact absurd h (by simp [Except.map])
            | ok vs =>
              rw [hrest] at h
              simp only [Except.map, Except.ok.injEq] at h
              subst h
              have := ih vs hrest
              simp [recordKeys, List.countP_cons, hm, this]
      · rw [if_neg hd] at h
        cases hrest : lookupVals columns rest with
        | error e =>
          rw [hrest] at h
          exact absurd h (by simp [Except.map])
        | ok vs =>
          rw [hrest] at h
          simp only [Except.map, Except.ok.injEq] at h
          subst h
          have := ih vs hrest
          simp [recordKeys, List.countP_cons, hm, this]
    · have hm : k ∉ columns := fun hmem => hc (List.elem_iff.mpr hmem)
      rw [if_neg hc] at h
      have := ih vals h
      simp [recordKeys, List.countP_cons, hm, this]

theorem mem_keys_of_countP_full (keys columns : List String)
    (hnd : keys.Nodup)
    (hlen : keys.countP (fun k => columns.contains k) = columns.length)
    (c : String) (hc : c ∈ columns) : c ∈ keys := by
  by_contra hck
  have hllen : (keys.filter (fun k => columns.contains k)).length
      = columns.length := by
    rw [← List.countP_eq_length_filter]
    exact hlen
  have hlnd : (keys.filter (fun k => columns.contains k)).Nodup :=
    hnd.filter _
  have hsub : keys.filter (fun k => columns.contains k) ⊆
      columns.erase c := by
    intro x hx
    have hxk : x ∈ keys := (List.mem_filter.mp hx).1
    have hxb : columns.contains x = true := by
      simpa using (List.mem_filter.mp hx).2
    have hxc : x ∈ columns := List.elem_iff.mp hxb
    have hxne : x ≠ c := fun he => hck (he ▸ hxk)
    exact (List.mem_erase_of_ne hxne).mpr hxc
  have hle := (hlnd.subperm hsub).length_le
  have herase : (columns.erase c).length = columns.length - 1 :=
    List.length_erase_of_mem hc
  have hpos : 0 < columns.length := List.length_pos_of_mem hc
  omega

theorem selectFirst_some_some (db : DB) (tbl : String)
    (conds : List String) (vals : List Val) (r : Row)
    (h : selectFirst db tbl conds vals = some (some r)) :
    ∃ tid, parseTableName tbl = some tid ∧ r ∈ getRows db tid ∧
      matchesCond conds vals r = true := by
  unfold selectFirst at h
  split at h
  · exact absurd h (by simp)
  next tid hpt =>
    split at h
    · rw [Option.some_inj] at h
      exact ⟨tid, hpt, List.mem_of_find?_eq_some h, List.find?_some h⟩
    · exact absurd h (by simp)

theorem selectFirst_isSome_facts (db : DB) (tbl : String)
    (conds : List String) (vals : List Val) (x : Option Row)
    (h : selectFirst db tbl conds vals = some x) :
    conds ≠ [] ∧ vals.length = conds.length := by
  unfold selectFirst at h
  split at h
  · exact absurd h (by simp)
  next tid hpt =>
    split at h
    next hg =>
      rw [Bool.and_eq_true, Bool.and_eq_true] at hg
      refine ⟨?_, beq_iff_eq.mp hg.2⟩
      intro he
      subst he
      have := hg.1.1
      simp at this
    · exact absurd h (by simp)

theorem is_row_in_table_cases (db : DB) (tbl : String)
    (columns : List String) (d : Record) (vals : List Val)
    (hnd : (recordKeys d).Nodup)
    (hprep : lookupVals columns d = .ok vals) :
    (∃ r, selectFirst db tbl (columns.map mapColumnName) vals
        = some (some r) ∧
      is_row_in_table db tbl columns d = .ok (rowIdNat r)) ∨
    is_row_in_table db tbl columns d = .ok none := by
  unfold is_row_in_table
  rw [hprep]
  dsimp only []
  cases hsf : selectFirst db tbl (columns.map mapColumnName) vals with
  | none => right; rfl
  | some x =>
    cases x with
    | none => right; rfl
    | some r =>
      left
      refine ⟨r, rfl, ?_⟩
      obtain ⟨hcne, hlen⟩ := selectFirst_isSome_facts _ _ _ _ _ hsf
      cases hcol : columns with
      | nil =>
        subst hcol
        exact absurd rfl hcne
      | cons c0 cs =>
        have hcount : (recordKeys d).countP (fun k => columns.contains k)
            = columns.length := by
          rw [← lookupVals_length _ _ _ hprep, hlen, List.length_map]
        have hc0k : c0 ∈ recordKeys d :=
          mem_keys_of_countP_full _ _ hnd hcount c0
            (hcol ▸ List.mem_cons_self c0 cs)
        have hlk : (d.lookup c0).isSome := by
          rw [List.lookup_isSome_iff]
          obtain ⟨p, hp, he⟩ := List.mem_map.mp hc0k
          exact ⟨p, hp, by simp [he]⟩
        subst hcol
        dsimp only []
        cases hlku : d.lookup c0 with
        | none => rw [hlku] at hlk; exact absurd hlk (by simp)
        | some v => rfl

/-- C8 amended: with the lookup-value preparation succeeding (the record
has no malformed "date" value among the lookup columns), the identity
resolver never raises, any returned identity is the id of a row of the
resolved table satisfying the equality conjunction over the mapped
columns with the positionally bound values, and if no row satisfies the
conjunction the resolver returns absent.  (The unamended claim fails:
errors in the value preparation itself are raised, not caught — see the
counterexample.) -/
theorem is_row_in_table_resolver (db : DB) (tbl : String)
    (columns : List String) (d : Record) (vals : List Val)
    (hnd : (recordKeys d).Nodup)
    (hprep : lookupVals columns d = .ok vals) :
    (∃ res, is_row_in_table db tbl columns d = .ok res) ∧
    (∀ i, is_row_in_table db tbl columns d = .ok (some i) →
      ∃ tid r, parseTableName tbl = some tid ∧ r ∈ getRows db tid ∧
        matchesCond (columns.map mapColumnName) vals r = true ∧
        rowIdNat r = some i) ∧
    (∀ tid, parseTableName tbl = some tid →
      (∀ r ∈ getRows db tid,
        matchesCond (columns.map mapColumnName) vals r = false) →
      is_row_in_table db tbl columns d = .ok none) := by
  have hch := is_row_in_table_cases db tbl columns d vals hnd hprep
  refine ⟨?_, ?_, ?_⟩
  · rcases hch with ⟨r, hsf, he⟩ | he
    · exact ⟨rowIdNat r, he⟩
    · exact ⟨none, he⟩
  · intro i heq
    rcases hch with ⟨r, hsf, he⟩ | he
    · rw [he] at heq
      have hri : rowIdNat r = some i := by
        injection heq
      obtain ⟨tid, hpt, hmem, hmatch⟩ := selectFirst_some_some _ _ _ _ _ hsf
      exact ⟨tid, r, hpt, hmem, hmatch, hri⟩
    · rw [he] at heq
      exact absurd heq (by simp)
  · intro tid hpt hall
    rcases hch with ⟨r, hsf, he⟩ | he
    · obtain ⟨tid2, hpt2, hmem, hmatch⟩ := selectFirst_some_some _ _ _ _ _ hsf
      rw [hpt] at hpt2
      have htid : tid2 = tid := (Option.some_inj.mp hpt2).symm
      subst htid
      exact absurd hmatch (by simp [hall r hmem])
    · exact he

theorem is_row_in_table_resolver_witness :
    (recordKeys sampleSongRecord).Nodup ∧
    lookupVals songLookupColumns sampleSongRecord
      = .ok [Val.vStr "A", Val.vNum 3, Val.vNum 6] ∧
    ((∃ res, is_row_in_table (add_song dbEmpty sampleSongRecord).2 "song"
        songLookupColumns sampleSongRecord = .ok res) ∧
    (∀ i, is_row_in_table (add_song dbEmpty sampleSongRecord).2 "song"
        songLookupColumns sampleSongRecord = .ok (some i) →
      ∃ tid r, parseTableName "song" = some tid ∧
        r ∈ getRows (add_song dbEmpty sampleSongRecord).2 tid ∧
        matchesCond (songLookupColumns.map mapColumnName)
          [Val.vStr "A", Val.vNum 3, Val.vNum 6] r = true ∧
        rowIdNat r = some i) ∧
    (∀ tid, parseTableName "song" = some tid →
      (∀ r ∈ getRows (add_song dbEmpty sampleSongRecord).2 tid,
        matchesCond (songLookupColumns.map mapColumnName)
          [Val.vStr "A", Val.vNum 3, Val.vNum 6] r = false) →
      is_row_in_table (add_song dbEmpty sampleSongRecord).2 "song"
        songLookupColumns sampleSongRecord = .ok none)) :=
  ⟨by decide, rfl,
    is_row_in_table_resolver (add_song dbEmpty sampleSongRecord).2 "song"
      songLookupColumns sampleSongRecord
      [Val.vStr "A", Val.vNum 3, Val.vNum 6] (by decide) rfl⟩

/-- C8 counterexample to the unamended claim: a lookup whose "date" value
is not an integer string raises ValueError out of is_row_in_table instead
of being caught and treated as "no match found". -/
theorem is_row_in_table_raises_counterexample :
    is_row_in_table dbEmpty "album" ["album", "date"] badDateRecord
      = .error .valueError := rfl

theorem sqlEq_self (v : Val) (h : v ≠ Val.vNull) : sqlEq v v = true := by
  cases v with
  | vNull => exact absurd rfl h
  | vStr s => simp [sqlEq]
  | vNum n => simp [sqlEq]
  | vDate y m dd => simp [sqlEq]
  | vUuid n => simp [sqlEq]
  | vPair a b => simp [sqlEq]

/-- C1 amended: add_song is idempotent for song records whose recognized
keys stand in the canonical column order (and whose fingerprint values
are non-null), starting from a store holding no row with the same
fingerprint: the two calls return one identity and the song table grows
by exactly one row.  (The unamended claim, quantified over every valid
record regardless of key insertion order, fails — see the
counterexample.) -/
theorem add_song_idempotent_canonical (db : DB) (d : Record)
    (c t : Val) (va1 va2 : Int)
    (f1 f2 f3 f4 f5 f6 f7 f8 f9 f10 f11 f12 f13 fbpm : Val)
    (hd : d = canonicalSongRecord c t va1 va2 f1 f2 f3 f4 f5 f6 f7 f8 f9
      f10 f11 f12 f13 fbpm)
    (ht : t ≠ Val.vNull) (hh : f3 ≠ Val.vNull) (hs : f6 ≠ Val.vNull)
    (hno : db.song.find? (matchesCond
      ["title", "happy_non_happy", "sad_non_sad"] [t, f3, f6]) = none) :
    ∃ k,
      (add_song db d).1 = .ok (some k) ∧
      (add_song (add_song db d).2 d).1 = .ok (some k) ∧
      (add_song db d).2.song.length = db.song.length + 1 ∧
      (add_song (add_song db d).2 d).2.song = (add_song db d).2.song := by
  subst hd
  have hprep : lookupVals songLookupColumns (canonicalSongRecord c t va1
      va2 f1 f2 f3 f4 f5 f6 f7 f8 f9 f10 f11 f12 f13 fbpm)
      = .ok [t, f3, f6] := rfl
  have h1 : is_row_in_table db "song" songLookupColumns
      (canonicalSongRecord c t va1 va2 f1 f2 f3 f4 f5 f6 f7 f8 f9 f10 f11
        f12 f13 fbpm) = .ok none := by
    unfold is_row_in_table
    rw [hprep]
    dsimp only []
    rw [show selectFirst db "song" (songLookupColumns.map mapColumnName)
        [t, f3, f6]
        = some (db.song.find? (matchesCond
          ["title", "happy_non_happy", "sad_non_sad"] [t, f3, f6]))
      from rfl]
    rw [hno]
  have hfirst : add_song db (canonicalSongRecord c t va1 va2 f1 f2 f3 f4
      f5 f6 f7 f8 f9 f10 f11 f12 f13 fbpm)
      = (.ok (some db.nextId),
        setRows { db with nextId := db.nextId + 1 } TableId.song
          (db.song ++
            [[("id", Val.vUuid db.nextId), ("comment", c), ("title", t),
              ("valence", Val.vNum va1), ("arousal", Val.vNum va2),
              ("danceable_not_danceable", f1),
              ("aggressive_non_aggressive", f2), ("happy_non_happy", f3),
              ("party_non_party", f4), ("relaxed_non_relaxed", f5),
              ("sad_non_sad", f6), ("acoustic_non_acoustic", f7),
              ("electronic_non_electronic", f8),
              ("instrumental_voice", f9), ("female_male", f10),
              ("bright_dark", f11), ("acoustic_electronic", f12),
              ("dry_wet", f13), ("bpm", fbpm)]])) := by
    unfold add_song
    rw [h1]
    rfl
  have hp2 : matchesCond ["title", "happy_non_happy", "sad_non_sad"]
      [t, f3, f6]
      [("id", Val.vUuid db.nextId), ("comment", c), ("title", t),
        ("valence", Val.vNum va1), ("arousal", Val.vNum va2),
        ("danceable_not_danceable", f1),
        ("aggressive_non_aggressive", f2), ("happy_non_happy", f3),
        ("party_non_party", f4), ("relaxed_non_relaxed", f5),
        ("sad_non_sad", f6), ("acoustic_non_acoustic", f7),
        ("electronic_non_electronic", f8), ("instrumental_voice", f9),
        ("female_male", f10), ("bright_dark", f11),
        ("acoustic_electronic", f12), ("dry_wet", f13),
        ("bpm", fbpm)] = true := by
    show (sqlEq t t && (sqlEq f3 f3 && (sqlEq f6 f6 && true))) = true
    rw [sqlEq_self t ht, sqlEq_self f3 hh, sqlEq_self f6 hs]
    rfl
  have h2 : is_row_in_table
      (setRows { db with nextId := db.nextId + 1 } TableId.song
        (db.song ++
          [[("id", Val.vUuid db.nextId), ("comment", c), ("title", t),
            ("valence", Val.vNum va1), ("arousal", Val.vNum va2),
            ("danceable_not_danceable", f1),
            ("aggressive_non_aggressive", f2), ("happy_non_happy", f3),
            ("party_non_party", f4), ("relaxed_non_relaxed", f5),
            ("sad_non_sad", f6), ("acoustic_non_acoustic", f7),
            ("electronic_non_electronic", f8), ("instrumental_voice", f9),
            ("female_male", f10), ("bright_dark", f11),
            ("acoustic_electronic", f12), ("dry_wet", f13),
            ("bpm", fbpm)]]))
      "song" songLookupColumns
      (canonicalSongRecord c t va1 va2 f1 f2 f3 f4 f5 f6 f7 f8 f9 f10 f11
        f12 f13 fbpm) = .ok (some db.nextId) := by
    unfold is_row_in_table
    rw [hprep]
    dsimp only []
    rw [show selectFirst
        (setRows { db with nextId := db.nextId + 1 } TableId.song
          (db.song ++
            [[("id", Val.vUuid db.nextId), ("comment", c), ("title", t),
              ("valence", Val.vNum va1), ("arousal", Val.vNum va2),
              ("danceable_not_danceable", f1),
              ("aggressive_non_aggressive", f2), ("happy_non_happy", f3),
              ("party_non_party", f4), ("relaxed_non_relaxed", f5),
              ("sad_non_sad", f6), ("acoustic_non_acoustic", f7),
              ("electronic_non_electronic", f8),
              ("instrumental_voice", f9), ("female_male", f10),
              ("bright_dark", f11), ("acoustic_electronic", f12),
              ("dry_wet", f13), ("bpm", fbpm)]]))
        "song" (songLookupColumns.map mapColumnName) [t, f3, f6]
        = some ((db.song ++
            [[("id", Val.vUuid db.nextId), ("comment", c), ("title", t),
              ("valence", Val.vNum va1), ("arousal", Val.vNum va2),
              ("danceable_not_danceable", f1),
              ("aggressive_non_aggressive", f2), ("happy_non_happy", f3),
              ("party_non_party", f4), ("relaxed_non_relaxed", f5),
              ("sad_non_sad", f6), ("acoustic_non_acoustic", f7),
              ("electronic_non_electronic", f8),
              ("instrumental_voice", f9), ("female_male", f10),
              ("bright_dark", f11), ("acoustic_electronic", f12),
              ("dry_wet", f13), ("bpm", fbpm)]]).find?
          (matchesCond ["title", "happy_non_happy", "sad_non_sad"]
            [t, f3, f6]))
      from rfl]
    rw [List.find?_append, hno]
    rw [List.find?_cons_of_pos _ hp2]
    rfl
  refine ⟨db.nextId, ?_, ?_, ?_, ?_⟩
  · rw [hfirst]
  · rw [hfirst]
    dsimp only []
    unfold add_song
    rw [h2]
  · rw [hfirst]
    dsimp only []
    rw [show (setRows { db with nextId := db.nextId + 1 } TableId.song
        (db.song ++
          [[("id", Val.vUuid db.nextId), ("comment", c), ("title", t),
            ("valence", Val.vNum va1), ("arousal", Val.vNum va2),
            ("danceable_not_danceable", f1),
            ("aggressive_non_aggressive", f2), ("happy_non_happy", f3),
            ("party_non_party", f4), ("relaxed_non_relaxed", f5),
            ("sad_non_sad", f6), ("acoustic_non_acoustic", f7),
            ("electronic_non_electronic", f8), ("instrumental_voice", f9),
            ("female_male", f10), ("bright_dark", f11),
            ("acoustic_electronic", f12), ("dry_wet", f13),
            ("bpm", fbpm)]])).song
        = db.song ++
          [[("id", Val.vUuid db.nextId), ("comment", c), ("title", t),
            ("valence", Val.vNum va1), ("arousal", Val.vNum va2),
            ("danceable_not_danceable", f1),
            ("aggressive_non_aggressive", f2), ("happy_non_happy", f3),
            ("party_non_party", f4), ("relaxed_non_relaxed", f5),
            ("sad_non_sad", f6), ("acoustic_non_acoustic", f7),
            ("electronic_non_electronic", f8), ("instrumental_voice", f9),
            ("female_male", f10), ("bright_dark", f11),
            ("acoustic_electronic", f12), ("dry_wet", f13),
            ("bpm", fbpm)]]
      from rfl]
    simp
  · rw [hfirst]
    dsimp only []
    unfold add_song
    rw [h2]

/-- C1 counterexample: the same key-to-value mapping with the title and
comment keys swapped in insertion order is a valid record (it contains
the title and both fingerprint columns, and both inserts succeed), yet
add_song called twice returns two different identities and the song
table gains two rows, because the WHERE values are bound in record
insertion order while the inserted values are bound positionally. -/
theorem add_song_reorder_counterexample :
    (add_song dbEmpty swappedSongRecord).1 = .ok (some 0) ∧
    (add_song (add_song dbEmpty swappedSongRecord).2
      swappedSongRecord).1 = .ok (some 1) ∧
    (add_song (add_song dbEmpty swappedSongRecord).2
      swappedSongRecord).2.song.length = 2 :=
  ⟨rfl, rfl, rfl⟩

theorem add_song_idempotent_canonical_witness :
    sampleSongRecord = canonicalSongRecord (Val.vStr "c") (Val.vStr "A")
      5 6 (Val.vNum 1) (Val.vNum 2) (Val.vNum 3) (Val.vNum 4) (Val.vNum 5)
      (Val.vNum 6) (Val.vNum 7) (Val.vNum 8) (Val.vNum 9) (Val.vNum 10)
      (Val.vNum 11) (Val.vNum 12) (Val.vNum 13) (Val.vNum 14) ∧
    Val.vStr "A" ≠ Val.vNull ∧
    dbEmpty.song.find? (matchesCond
      ["title", "happy_non_happy", "sad_non_sad"]
      [Val.vStr "A", Val.vNum 3, Val.vNum 6]) = none ∧
    (∃ k,
      (add_song dbEmpty sampleSongRecord).1 = .ok (some k) ∧
      (add_song (add_song dbEmpty sampleSongRecord).2
        sampleSongRecord).1 = .ok (some k) ∧
      (add_song dbEmpty sampleSongRecord).2.song.length
        = dbEmpty.song.length + 1 ∧
      (add_song (add_song dbEmpty sampleSongRecord).2
        sampleSongRecord).2.song
        = (add_song dbEmpty sampleSongRecord).2.song) :=
  ⟨rfl, by decide, rfl,
    add_song_idempotent_canonical dbEmpty sampleSongRecord (Val.vStr "c")
      (Val.vStr "A") 5 6 (Val.vNum 1) (Val.vNum 2) (Val.vNum 3)
      (Val.vNum 4) (Val.vNum 5) (Val.vNum 6) (Val.vNum 7) (Val.vNum 8)
      (Val.vNum 9) (Val.vNum 10) (Val.vNum 11) (Val.vNum 12)
      (Val.vNum 13) (Val.vNum 14) rfl (by decide) (by decide) (by decide)
      rfl⟩

/-- C3: the date helper maps "1999" to 1999-01-01, "1999-12" to
1999-12-01, "1999-12-03" to 1999-12-03 and rejects "12345" and "Hello"
with None — but on "1999-13-01" it raises ValueError (the string passes
the all-digit regex and date(1999, 13, 1) throws outside any try),
contradicting the claim (and the repository's own
test_correct_date_format, which asserts None for "1999-13-01"). -/
theorem get_correct_date_format_eval :
    get_correct_date_format "1999" = .ok (some (.vDate 1999 1 1)) ∧
    get_correct_date_format "1999-12" = .ok (some (.vDate 1999 12 1)) ∧
    get_correct_date_format "1999-12-03"
      = .ok (some (.vDate 1999 12 3)) ∧
    get_correct_date_format "12345" = .ok none ∧
    get_correct_date_format "Hello" = .ok none ∧
    get_correct_date_format "1999-13-01" = .error .valueError ∧
    get_correct_date_format "1999-12-32" = .error .valueError ∧
    get_correct_date_format "1999-13" = .error .valueError :=
  ⟨rfl, rfl, rfl, rfl, rfl, rfl, rfl, rfl⟩

/-- C4: add_album does not implement the claimed date precondition: a
record with an "album" field and the parseable year-month date "1999-12"
raises ValueError (from int() inside the existence check) instead of
proceeding; a record with "album" but no "date" key raises KeyError
instead of returning None; a non-date string also raises; only a bare
integer year such as "1955" proceeds. -/
theorem add_album_date_precondition_eval :
    (add_album dbEmpty ymDateRecord).1 = .error .valueError ∧
    (add_album dbEmpty noDateRecord).1 = .error .keyError ∧
    (add_album dbEmpty badDateRecord).1 = .error .valueError ∧
    (add_album dbEmpty sampleFullRecord).1 = .ok (some 0) :=
  ⟨rfl, rfl, rfl, rfl⟩

/-- C5: an exception does escape to the orchestrator: ingesting a record
whose date is "Hello" lets the ValueError raised inside the album lookup
propagate out of add_data, after the song row has already been
committed. -/
theorem add_data_exception_escapes :
    (add_data dbEmpty badDateRecord).1 = .error .valueError ∧
    (add_data dbEmpty badDateRecord).2.song.length = 1 :=
  ⟨rfl, rfl⟩

/-- C6: add_song drops only album, artist, date and tracknumber; an
extra unrecognized key ("lyrics") flows into the INSERT values, the
placeholder/parameter counts no longer agree, the insert fails and
add_song returns None with no row stored — the same record without the
extra key inserts fine.  This contradicts the claim (and the
repository's own test_only_relevant_columns_will_be_inserted). -/
theorem add_song_extra_keys_eval :
    (add_song dbEmpty extraKeyRecord).1 = .ok none ∧
    (add_song dbEmpty extraKeyRecord).2.song = [] ∧
    (add_song dbEmpty sampleFullRecord).1 = .ok (some 0) :=
  ⟨rfl, rfl, rfl⟩

/-- C7: add_data does not skip downstream relation work when a dimension
upsert returns absent: for a record with no artist key the artist upsert
returns None, yet both artist relations are still attempted and insert
rows whose artist_id is NULL. -/
theorem add_data_null_relation_eval :
    (add_data dbEmpty noArtistRecord).1 = .ok () ∧
    (add_artist dbEmpty noArtistRecord).1 = .ok none ∧
    (add_data dbEmpty noArtistRecord).2.song_artist
      = [[("id", Val.vUuid 3), ("song_id", Val.vUuid 0),
          ("artist_id", Val.vNull)]] ∧
    (add_data dbEmpty noArtistRecord).2.album_artist
      = [[("id", Val.vUuid 4), ("album_id", Val.vUuid 1),
          ("artist_id", Val.vNull)]] :=
  ⟨rfl, rfl, rfl, rfl⟩

/-- C9: no upsert or link operation ever mutates an existing row: every
call to add_song, add_album, add_artist or add_relation leaves each of
the six tables either unchanged or extended by exactly one appended row
(existing rows untouched), so over any sequence of these operations a
row, once created, is never modified. -/
theorem ops_never_mutate (db : DB) (d : Record) (rel ft : String)
    (fid : Option Nat) (st : String) (sid : Option Nat) :
    dbExtends db (add_song db d).2 ∧ dbExtends db (add_album db d).2 ∧
    dbExtends db (add_artist db d).2 ∧
    dbExtends db (add_relation db rel ft fid st sid).2 :=
  ⟨add_song_dbExtends db d, add_album_dbExtends db d,
    add_artist_dbExtends db d,
    add_relation_dbExtends db rel ft fid st sid⟩

/-- C10: the existence check is not invariant under reordering the
record's keys: sampleSongRecord and reorderedSongRecord are permutations
of each other (the same key-to-value mapping, different insertion order),
yet against the same store one lookup finds the row and the other does
not, because the WHERE values are collected in record insertion order
while the equality conditions follow the lookup-columns order. -/
theorem is_row_in_table_order_sensitive :
    List.Perm sampleSongRecord reorderedSongRecord ∧
    sampleSongRecord ≠ reorderedSongRecord ∧
    (recordKeys sampleSongRecord).Nodup ∧
    is_row_in_table (add_song dbEmpty sampleSongRecord).2 "song"
      songLookupColumns sampleSongRecord = .ok (some 0) ∧
    is_row_in_table (add_song dbEmpty sampleSongRecord).2 "song"
      songLookupColumns reorderedSongRecord = .ok none :=
  ⟨by decide, by decide, by decide, rfl, rfl⟩

theorem ops_never_mutate_witness :
    dbExtends dbEmpty (add_song dbEmpty sampleSongRecord).2 ∧
    dbExtends dbEmpty (add_album dbEmpty sampleSongRecord).2 ∧
    dbExtends dbEmpty (add_artist dbEmpty sampleSongRecord).2 ∧
    dbExtends dbEmpty
      (add_relation dbEmpty "song_album" "song" (some 0) "album"
        (some 1)).2 :=
  ops_never_mutate dbEmpty sampleSongRecord "song_album" "song" (some 0)
    "album" (some 1)
